import Mathlib

/-!
Shallow embedding of the optimization core of the MultiObjective-Tour-Planning
repository (C++), together with theorems settling the frozen claims about it.

Conventions of the embedding:
* C++ `double` arithmetic is modelled by exact rational arithmetic (`ℚ`);
  every numeric literal involved in the claims (matrix cells, the constants
  840, 15, 6, 0.1) is exactly representable, and no claim hinges on rounding.
* The four OD matrices, loaded once at startup (`utils::TransportMatrices`),
  are modelled as a `TransportEnv`: total functions from pairs of attraction
  names to rationals.  All routes considered by the claims reference loaded
  attractions, so the throwing branch of the C++ lookups never fires; name
  canonicalization (trimming, space stripping) is the identity in the model.
* `std::vector` becomes `List`; operations that throw `std::out_of_range`
  before mutating the object are modelled as returning the object unchanged
  (the C++ code offers the strong exception guarantee at these points).
-/

attribute [local semireducible] Rat.add Rat.mul Rat.sub Rat.inv

namespace Tour

/-- Transport mode, from src/include/utils.hpp (`utils::TransportMode`). -/
inductive TransportMode where
  | WALK
  | CAR
deriving DecidableEq, Repr

open TransportMode

/-- Global constants, from src/include/utils.hpp (`utils::Config`). -/
def COST_CAR_PER_KM : ℚ := 6

def DAILY_TIME_LIMIT : ℚ := 840

def WALK_TIME_PREFERENCE : ℚ := 15

def TOLERANCE : ℚ := 1/10

/-- An attraction record, from src/include/models.hpp (`class Attraction`).
Geo-coordinates are omitted: no operation of the optimization core reads them. -/
structure Attraction where
  name : String
  neighborhood : String
  visitTime : ℤ
  cost : ℚ
  openingTime : ℤ
  closingTime : ℤ
deriving DecidableEq, Repr

instance : Inhabited Attraction := ⟨⟨"", "", 0, 0, 0, 0⟩⟩

/-- `Attraction::isOpenAt` from src/include/models.hpp lines 39-44. -/
def Attraction.isOpenAt (a : Attraction) (time : ℤ) : Bool :=
  if time < 0 || time ≥ 24*60 then false
  else if a.openingTime = 0 && a.closingTime = 1439 then true
  else a.openingTime ≤ time && time ≤ a.closingTime

/-- C++ implicit `double`→`int` conversion (truncation toward zero), used when
`recalculateTimeInfo` and the validity checks pass a `double` time to
`Attraction::isOpenAt(int)`. -/
def cppToInt (q : ℚ) : ℤ := q.num / (q.den : ℤ)

/-- The loaded transport matrices, from src/include/utils.hpp
(`utils::TransportMatrices`): distances in metres, times in minutes, keyed by
attraction name. -/
structure TransportEnv where
  carDist : String → String → ℚ
  walkDist : String → String → ℚ
  carTime : String → String → ℚ
  walkTime : String → String → ℚ

/-- `Transport::getDistance` from src/src/utils.cpp lines 43-105, restricted to
loaded names (the throwing branch is unreachable for them). -/
def Transport.getDistance (env : TransportEnv) (from_ to_ : String)
    (mode : TransportMode) : ℚ :=
  match mode with
  | WALK => env.walkDist from_ to_
  | CAR => env.carDist from_ to_

/-- `Transport::getTravelTime` from src/src/utils.cpp lines 107-160. -/
def Transport.getTravelTime (env : TransportEnv) (from_ to_ : String)
    (mode : TransportMode) : ℚ :=
  match mode with
  | WALK => env.walkTime from_ to_
  | CAR => env.carTime from_ to_

/-- `Transport::getTravelCost` from src/src/utils.cpp lines 162-177: WALK is
free; CAR costs `distance / 1000 * COST_CAR_PER_KM`.  There is no clamping of
negative cells; the `catch` branch (unknown name) is unreachable for loaded
names. -/
def Transport.getTravelCost (env : TransportEnv) (from_ to_ : String)
    (mode : TransportMode) : ℚ :=
  match mode with
  | WALK => 0
  | CAR => Transport.getDistance env from_ to_ CAR / 1000 * COST_CAR_PER_KM

/-- `Transport::determinePreferredMode` from src/src/utils.cpp lines 179-193:
WALK iff the walking time is at most `WALK_TIME_PREFERENCE`. -/
def Transport.determinePreferredMode (env : TransportEnv) (from_ to_ : String) :
    TransportMode :=
  if env.walkTime from_ to_ ≤ WALK_TIME_PREFERENCE then WALK else CAR

/-- Per-attraction time record, from `MOVNSSolution::TimeInfo`
(src/include/movns-solution.hpp lines 24-30) and the identical
`Route::AttractionTimeInfo` (src/include/models.hpp lines 96-102). -/
structure TimeInfo where
  arrivalTime : ℚ
  departureTime : ℚ
  waitTime : ℚ
deriving DecidableEq, Repr

instance : Inhabited TimeInfo := ⟨⟨0, 0, 0⟩⟩

/-- The tail of `recalculateTimeInfo` (src/src/movns-solution.cpp lines
524-552): process the attractions after the first one, threading the current
time.  `prev` is the previously visited attraction, `t` the departure time
from it, and the transport modes are consumed in step with the attractions.
A state with fewer modes than segments would read out of bounds in C++ (it is
unreachable through the exposed operations); the model stops there. -/
def recalcRest (env : TransportEnv) : Attraction → List TransportMode →
    List Attraction → ℚ → List TimeInfo
  | _, _, [], _ => []
  | _, [], _ :: _, _ => []
  | prev, m :: ms, a :: as, t =>
      let t1 := t + Transport.getTravelTime env prev.name a.name m
      let wait : ℚ :=
        if ¬ a.isOpenAt (cppToInt t1) ∧ t1 < (a.openingTime : ℚ) then
          (a.openingTime : ℚ) - t1
        else 0
      let arr := t1 + wait
      let dep := arr + (a.visitTime : ℚ)
      ⟨arr, dep, wait⟩ :: recalcRest env a ms as dep

/-- `MOVNSSolution::recalculateTimeInfo` from src/src/movns-solution.cpp lines
499-553, as a function of the attraction and mode sequences.  The day starts
at 9:00 = 540 minutes.  `Route::recalculateTimeInfo` (src/src/models.cpp lines
141-193) is the same computation except that it does not reset stale
`wait_time` entries; for a route built from scratch by the exposed operations
the two coincide, because `resize` zero-initializes new entries. -/
def recalculateTimeInfo (env : TransportEnv) (attractions : List Attraction)
    (modes : List TransportMode) : List TimeInfo :=
  match attractions with
  | [] => []
  | a :: as =>
      let start : ℚ := 9 * 60
      let wait : ℚ :=
        if ¬ a.isOpenAt (cppToInt start) ∧ start < (a.openingTime : ℚ) then
          (a.openingTime : ℚ) - start
        else 0
      let arr := start + wait
      let dep := arr + (a.visitTime : ℚ)
      ⟨arr, dep, wait⟩ :: recalcRest env a modes as dep

/-- The common state of a `Route` / `MOVNSSolution`: the attraction sequence,
the parallel transport-mode sequence, and the materialized time info. -/
structure SolState where
  attractions : List Attraction
  transportModes : List TransportMode
  timeInfo : List TimeInfo
deriving Repr

/-- Build a state whose time info has just been recalculated — every exposed
structural operation ends with `recalculateTimeInfo()`. -/
def mkState (env : TransportEnv) (attractions : List Attraction)
    (modes : List TransportMode) : SolState :=
  ⟨attractions, modes, recalculateTimeInfo env attractions modes⟩

/-- The empty solution (`MOVNSSolution()` / `Route()` / `Route::clear`). -/
def emptyState : SolState := ⟨[], [], []⟩

/-- The mode chosen for a fresh segment when the caller passed the default
`CAR`: `determinePreferredMode`, then the forced upgrade to CAR when the
walking time exceeds `WALK_TIME_PREFERENCE` (src/src/movns-solution.cpp lines
63-75 and the analogous blocks of `insertAttraction`). -/
def defaultedMode (env : TransportEnv) (from_ to_ : String) : TransportMode :=
  let pm := Transport.determinePreferredMode env from_ to_
  if env.walkTime from_ to_ > WALK_TIME_PREFERENCE then CAR else pm

namespace MOVNSSolution

/-- `MOVNSSolution::addAttraction` from src/src/movns-solution.cpp lines
46-85: skip duplicates by name; when the caller passed `CAR` (the default)
derive the mode via `determinePreferredMode` with the forced CAR upgrade for
long walks; a caller-supplied `WALK` is stored verbatim. -/
def addAttraction (env : TransportEnv) (s : SolState) (attr : Attraction)
    (mode : TransportMode) : SolState :=
  if s.attractions.any (fun existing => existing.name = attr.name) then s
  else
    match s.attractions.getLast? with
    | none => mkState env (s.attractions ++ [attr]) s.transportModes
    | some prev =>
        let mode' := if mode = CAR then defaultedMode env prev.name attr.name
                     else mode
        mkState env (s.attractions ++ [attr]) (s.transportModes ++ [mode'])

/-- `MOVNSSolution::removeAttraction` from src/src/movns-solution.cpp lines
87-118.  `index` out of range throws in C++ before any mutation; modelled as
the unchanged state. -/
def removeAttraction (env : TransportEnv) (s : SolState) (index : ℕ) :
    SolState :=
  if index ≥ s.attractions.length then s
  else
    let attrs := s.attractions.eraseIdx index
    let modes :=
      if index = 0 ∧ attrs ≠ [] then s.transportModes.drop 1
      else if index = attrs.length ∧ s.transportModes ≠ [] then
        s.transportModes.dropLast
      else if s.transportModes ≠ [] then
        if 0 < index ∧ index ≤ s.transportModes.length then
          let prev := attrs.getD (index - 1) default
          let next := if index < attrs.length then attrs.getD index default
                      else attrs.getD (index - 1) default
          let newMode := Transport.determinePreferredMode env prev.name next.name
          let modes1 := s.transportModes.eraseIdx (index - 1)
          if index ≤ modes1.length then modes1.set (index - 1) newMode
          else modes1
        else s.transportModes
      else s.transportModes
    mkState env attrs modes

/-- The list of segment indices whose transport mode `swapAttractions`
re-derives (src/src/movns-solution.cpp lines 129-135).  The C++ guards use
`size_t` arithmetic: for `index1 = 0` the comparison `index2 - 1 != index1 - 1`
compares against `SIZE_MAX` and is vacuously true, which the model renders as
the disjunct `i = 0`. -/
def swapAffectedIndices (i j : ℕ) (numModes : ℕ) : List ℕ :=
  (if 0 < i then [i - 1] else []) ++
  (if i < numModes then [i] else []) ++
  (if 0 < j ∧ j - 1 ≠ i ∧ (i = 0 ∨ j - 1 ≠ i - 1) then [j - 1] else []) ++
  (if j < numModes ∧ j ≠ i ∧ j ≠ i + 1 then [j] else [])

/-- `MOVNSSolution::swapAttractions` from src/src/movns-solution.cpp lines
120-144: swap the two attractions and re-derive the affected transport modes
with `determinePreferredMode`. -/
def swapAttractions (env : TransportEnv) (s : SolState) (i j : ℕ) : SolState :=
  if i ≥ s.attractions.length ∨ j ≥ s.attractions.length then s
  else
    let attrs := (s.attractions.set i (s.attractions.getD j default)).set j
      (s.attractions.getD i default)
    let modes := (swapAffectedIndices i j s.transportModes.length).foldl
      (fun ms idx => ms.set idx (Transport.determinePreferredMode env
        (attrs.getD idx default).name (attrs.getD (idx + 1) default).name))
      s.transportModes
    mkState env attrs modes

/-- `MOVNSSolution::insertAttraction` from src/src/movns-solution.cpp lines
146-233.  The `mode` parameter of the C++ signature is unnamed and ignored.
`position` out of range throws before any mutation (modelled as the unchanged
state); duplicates by name are skipped. -/
def insertAttraction (env : TransportEnv) (s : SolState) (attr : Attraction)
    (position : ℕ) : SolState :=
  if position > s.attractions.length then s
  else if s.attractions.any (fun existing => existing.name = attr.name) then s
  else
    let attrs := s.attractions.insertIdx position attr
    let modes :=
      if attrs.length > 1 then
        if position = 0 then
          defaultedMode env attr.name (attrs.getD 1 default).name ::
            s.transportModes
        else if position = attrs.length - 1 then
          s.transportModes ++
            [defaultedMode env (attrs.getD (position - 1) default).name
              attr.name]
        else
          let beforeMode := defaultedMode env
            (attrs.getD (position - 1) default).name attr.name
          let afterMode := defaultedMode env attr.name
            (attrs.getD (position + 1) default).name
          let modes1 := if position - 1 < s.transportModes.length then
              s.transportModes.set (position - 1) beforeMode
            else s.transportModes
          modes1.insertIdx position afterMode
      else s.transportModes
    mkState env attrs modes

/-- The segment triples `(from, to, mode)` that the cost/time/validity loops
of `MOVNSSolution` range over: index `i` runs while
`i < attractions.size() - 1 && i < transport_modes_.size()`. -/
def segments (s : SolState) : List (Attraction × Attraction × TransportMode) :=
  (s.attractions.zip s.attractions.tail).zip s.transportModes |>.map
    (fun p => (p.1.1, p.1.2, p.2))

/-- `MOVNSSolution::getTotalCost` from src/src/movns-solution.cpp lines
235-258: entrance costs and travel costs, each clamped to be non-negative
before summation. -/
def getTotalCost (env : TransportEnv) (s : SolState) : ℚ :=
  (s.attractions.map (fun a => max 0 a.cost)).sum +
    ((segments s).map (fun seg =>
      max 0 (Transport.getTravelCost env seg.1.name seg.2.1.name seg.2.2))).sum

/-- `MOVNSSolution::getTotalTime` from src/src/movns-solution.cpp lines
260-285: visit times, wait times from the time-info array (positions beyond
its length contribute nothing), and travel times. -/
def getTotalTime (env : TransportEnv) (s : SolState) : ℚ :=
  if s.attractions = [] then 0
  else
    ((List.range s.attractions.length).map (fun i =>
        ((s.attractions.getD i default).visitTime : ℚ) +
          (if i < s.timeInfo.length then (s.timeInfo.getD i default).waitTime
           else 0))).sum +
      ((segments s).map (fun seg =>
        Transport.getTravelTime env seg.1.name seg.2.1.name seg.2.2)).sum

/-- `MOVNSSolution::getNumAttractions` (src/src/movns-solution.cpp 287-289). -/
def getNumAttractions (s : SolState) : ℕ := s.attractions.length

/-- The number of distinct neighborhood tags in the solution, the size of the
`unordered_set` built in `getNumNeighborhoods` / `getObjectives`
(src/src/movns-solution.cpp lines 291-297 and 310-314). -/
def numNeighborhoods (s : SolState) : ℕ :=
  (s.attractions.map (fun a => a.neighborhood)).dedup.length

/-- `MOVNSSolution::getObjectives` from src/src/movns-solution.cpp lines
299-325: cost (clamped), time plus quadratic overrun penalty — the divisor of
the quadratic term is `max_time = DAILY_TIME_LIMIT * (1 + TOLERANCE)` —
negated attraction count, negated neighborhood count. -/
def getObjectives (env : TransportEnv) (s : SolState) : List ℚ :=
  let total_time := getTotalTime env s
  let max_time := DAILY_TIME_LIMIT * (1 + TOLERANCE)
  let time_penalty :=
    if total_time > max_time then
      (total_time - max_time) * (1 + (total_time - max_time) / max_time)
    else 0
  [max 0 (getTotalCost env s),
   total_time + time_penalty,
   -(getNumAttractions s : ℚ),
   -(numNeighborhoods s : ℚ)]

/-- `MOVNSSolution::respectsTimeLimit` (src/src/movns-solution.cpp 345-348). -/
def respectsTimeLimit (env : TransportEnv) (s : SolState) : Bool :=
  getTotalTime env s ≤ DAILY_TIME_LIMIT

/-- `MOVNSSolution::respectsWalkingLimit` from src/src/movns-solution.cpp
lines 350-366: every WALK segment's walking time is at most
`WALK_TIME_PREFERENCE`. -/
def respectsWalkingLimit (env : TransportEnv) (s : SolState) : Bool :=
  (segments s).all (fun seg =>
    if seg.2.2 = WALK then
      env.walkTime seg.1.name seg.2.1.name ≤ WALK_TIME_PREFERENCE
    else true)

/-- `MOVNSSolution::checkTimeConstraints` from src/src/movns-solution.cpp
lines 368-399: opening-hour checks at the (truncated) arrival and departure
times, and the visit-duration consistency check with tolerance 1 minute. -/
def checkTimeConstraints (s : SolState) : Bool :=
  (List.range s.attractions.length).all (fun i =>
    if i < s.timeInfo.length then
      let a := s.attractions.getD i default
      let info := s.timeInfo.getD i default
      a.isOpenAt (cppToInt info.arrivalTime) &&
        a.isOpenAt (cppToInt info.departureTime) &&
        |info.departureTime - info.arrivalTime - info.waitTime -
            (a.visitTime : ℚ)| ≤ 1
    else true)

/-- `MOVNSSolution::isValid` from src/src/movns-solution.cpp lines 327-343:
non-empty, duplicate-free by name, time constraints, walking cap, daily time
limit. -/
def isValid (env : TransportEnv) (s : SolState) : Bool :=
  if s.attractions = [] then false
  else if ¬ (s.attractions.map (fun a => a.name)).Nodup then false
  else checkTimeConstraints s && respectsWalkingLimit env s &&
    respectsTimeLimit env s

/-- The strict-dominance loop shared by `MOVNSSolution::dominates`
(src/src/movns-solution.cpp lines 401-418): walking two equally long
objective vectors, fail on a strictly worse axis, record a strictly better
one. -/
def dominatesGo : List ℚ → List ℚ → Bool → Bool
  | a :: as, b :: bs, better =>
      if a > b then false
      else dominatesGo as bs (better || decide (a < b))
  | _, _, better => better

/-- `MOVNSSolution::dominates`: standard strict Pareto dominance on the
4-element objective vectors (all axes minimized). -/
def dominates (env : TransportEnv) (s other : SolState) : Bool :=
  dominatesGo (getObjectives env s) (getObjectives env other) false

end MOVNSSolution

namespace Route

/-- `Route::addAttraction` from src/src/models.cpp lines 119-139: no
duplicate check and no forced CAR upgrade; when the caller passed `CAR` (the
default) the mode comes from `determinePreferredMode`, a caller-supplied
`WALK` is stored verbatim. -/
def addAttraction (env : TransportEnv) (s : SolState) (attr : Attraction)
    (mode : TransportMode) : SolState :=
  match s.attractions.getLast? with
  | none => mkState env (s.attractions ++ [attr]) s.transportModes
  | some prev =>
      let mode' := if mode = CAR then
          Transport.determinePreferredMode env prev.name attr.name
        else mode
      mkState env (s.attractions ++ [attr]) (s.transportModes ++ [mode'])

/-- `Route::getTotalCost` from src/src/models.cpp lines 195-213: entrance
costs plus travel costs, without any non-negative clamping. -/
def getTotalCost (env : TransportEnv) (s : SolState) : ℚ :=
  (s.attractions.map (fun a => a.cost)).sum +
    ((MOVNSSolution.segments s).map (fun seg =>
      Transport.getTravelCost env seg.1.name seg.2.1.name seg.2.2)).sum

/-- `Route::getTotalTime` from src/src/models.cpp lines 215-240 — textually
the same computation as `MOVNSSolution::getTotalTime`. -/
def getTotalTime (env : TransportEnv) (s : SolState) : ℚ :=
  MOVNSSolution.getTotalTime env s

/-- `Route::isValidSequence` from src/src/models.cpp lines 246-270: every
attraction is open at its (truncated) arrival and departure times. -/
def isValidSequence (s : SolState) : Bool :=
  (List.range s.attractions.length).all (fun i =>
    if i < s.timeInfo.length then
      let a := s.attractions.getD i default
      let info := s.timeInfo.getD i default
      a.isOpenAt (cppToInt info.arrivalTime) &&
        a.isOpenAt (cppToInt info.departureTime)
    else true)

/-- `Route::checkMaxDailyTime` from src/src/models.cpp lines 276-278. -/
def checkMaxDailyTime (env : TransportEnv) (s : SolState) : Bool :=
  getTotalTime env s ≤ DAILY_TIME_LIMIT

/-- `Route::isValid` from src/src/models.cpp lines 242-244: only the
opening-hours check and the daily time budget — no walking-cap check. -/
def isValid (env : TransportEnv) (s : SolState) : Bool :=
  isValidSequence s && checkMaxDailyTime env s

end Route

namespace SolutionBase

/-- The comparison loop of `SolutionBase::isDominatedBy` (src/include/base.hpp
lines 93-98): return `true` at the first axis where `this` is strictly worse
(larger); otherwise return `true` exactly when no axis was strictly better
(smaller). -/
def isDominatedByGo : List ℚ → List ℚ → Bool → Bool
  | a :: as, b :: bs, worse =>
      if a > b then true
      else isDominatedByGo as bs (worse || decide (a < b))
  | _, _, worse => !worse

/-- `SolutionBase::isDominatedBy` from src/include/base.hpp lines 89-99:
throws on an objective-vector length mismatch, otherwise runs the loop. -/
def isDominatedBy (thisObj otherObj : List ℚ) : Except String Bool :=
  if thisObj.length ≠ otherObj.length then
    Except.error "Incompatible objective vectors"
  else Except.ok (isDominatedByGo thisObj otherObj false)

end SolutionBase

namespace Solution

/-- `Solution::calculateObjectives` from src/src/models.cpp lines 294-309:
three objectives, with a linear penalty of ten times the overrun past
`DAILY_TIME_LIMIT` on the time axis. -/
def calculateObjectives (env : TransportEnv) (s : SolState) : List ℚ :=
  let total_time := Route.getTotalTime env s
  let time_penalty :=
    if total_time > DAILY_TIME_LIMIT then
      (total_time - DAILY_TIME_LIMIT) * 10
    else 0
  [Route.getTotalCost env s,
   total_time + time_penalty,
   -(s.attractions.length : ℚ)]

/-- `Solution::dominates` from src/src/models.cpp lines 290-292: it returns
`isDominatedBy(other.getObjectives())` verbatim. -/
def dominates (thisObj otherObj : List ℚ) : Except String Bool :=
  SolutionBase.isDominatedBy thisObj otherObj

end Solution

namespace MOVNS

/-- `MOVNS::updateApproximationSet` from src/src/movns-algorithm.cpp lines
318-388, acting on the approximation set (the exploration-state bookkeeping
of the same function touches neither `p_approx_` nor the returned flag and is
not part of the state modelled here).  Invalid candidates are rejected; a
candidate dominated by an incumbent is rejected; otherwise the incumbents the
candidate dominates are erased (collecting indices and erasing in reverse
order is the same as filtering) and the candidate is appended. -/
def updateApproximationSet (env : TransportEnv) (pApprox : List SolState)
    (solution : SolState) : Bool × List SolState :=
  if ¬ MOVNSSolution.isValid env solution then (false, pApprox)
  else if pApprox.any (fun existing =>
      MOVNSSolution.dominates env existing solution) then (false, pApprox)
  else (true,
    pApprox.filter (fun existing =>
      ¬ MOVNSSolution.dominates env solution existing) ++ [solution])

end MOVNS

namespace HypervolumeCalculator

/-- A point handed to the hypervolume calculator, instantiated at two
objectives: the recursion of src/src/hypervolume.cpp at `n = 2` runs entirely
through the `k = n - 2 = 0` base case, where both axes take the minimization
branches (`i == 2` never holds). -/
def Point := ℚ × ℚ
deriving DecidableEq, Inhabited

/-- `HypervolumeCalculator::Point::dominates` (src/src/hypervolume.cpp lines
14-33) over objectives `[k, d)` with `k = 0`, `d = 2`: both axes minimized. -/
def Point.dominates (p other : Point) : Bool :=
  if p.1 > other.1 then false
  else if p.2 > other.2 then false
  else decide (p.1 < other.1) || decide (p.2 < other.2)

/-- One step of `filterDominated`'s scan (src/src/hypervolume.cpp lines
368-390): skip a point dominated by the accumulated non-dominated list,
otherwise remove the accumulated points it dominates and append it. -/
def filterStep (nonDominated : List Point) (point : Point) : List Point :=
  if nonDominated.any (fun other => Point.dominates other point) then
    nonDominated
  else
    nonDominated.filter (fun other => ¬ Point.dominates point other) ++ [point]

/-- `HypervolumeCalculator::filterDominated` from src/src/hypervolume.cpp
lines 358-393. -/
def filterDominated (points : List Point) : List Point :=
  if points.length < 2 then points else points.foldl filterStep []

/-- The comparator-driven `std::sort` by the first objective, ascending
(src/src/hypervolume.cpp lines 301-304), modelled as insertion sort. -/
def insertByFst (p : Point) : List Point → List Point
  | [] => [p]
  | q :: qs => if q.1 < p.1 then q :: insertByFst p qs else p :: q :: qs

def sortByFst : List Point → List Point
  | [] => []
  | p :: ps => insertByFst p (sortByFst ps)

/-- The sweep state of `calculate2D`: accumulated volume, `prev_x`, `best_y`. -/
def sweepStep (r : Point) (st : ℚ × ℚ × ℚ) (p : Point) : ℚ × ℚ × ℚ :=
  if p.1 ≥ r.1 || p.2 ≥ r.2 then st
  else if p.2 < st.2.2 then
    (st.1 + (st.2.1 - p.1) * (r.2 - p.2), p.1, p.2)
  else st

/-- `HypervolumeCalculator::calculate2D` from src/src/hypervolume.cpp lines
288-354, with `isMaximization = false` (the value passed at `n = 2`): sort by
the first axis ascending and sweep, adding `(prev_x - x) * (r_2 - y)`
whenever a point improves the best second coordinate seen so far. -/
def calculate2D (points : List Point) (r : Point) : ℚ :=
  if points = [] then 0
  else ((sortByFst points).foldl (sweepStep r) (0, r.1, r.2)).1

/-- Whether a point makes the reference "invalid" in the sense of
src/src/hypervolume.cpp lines 64-87: the point is strictly better than the
reference on every (minimization) axis. -/
def strictlyDominatesRef (p r : Point) : Bool :=
  decide (p.1 < r.1) && decide (p.2 < r.2)

/-- The per-axis minimum over a non-empty point list (the `min_value` loops of
src/src/hypervolume.cpp lines 104-108; the `DBL_MAX` seed is equivalent to
seeding with the first point). -/
def minFst : List Point → ℚ
  | [] => 0
  | p :: ps => ps.foldl (fun m q => min m q.1) p.1

def minSnd : List Point → ℚ
  | [] => 0
  | p :: ps => ps.foldl (fun m q => min m q.2) p.2

/-- The adjustment margin `max(0.1 * |v|, 1.0)` of src/src/hypervolume.cpp
lines 101 and 110. -/
def margin (v : ℚ) : ℚ := max (1/10 * |v|) 1

/-- `HypervolumeCalculator::calculate` from src/src/hypervolume.cpp lines
40-122, at two objectives.  The reference is declared invalid when some point
strictly dominates it, in which case it is replaced by the per-axis minimum
plus the margin; then `hso` at `k = 0`, `n = 2` filters the dominated points
and runs `calculate2D`. -/
def calculate (points : List Point) (r : Point) : ℚ :=
  if points = [] then 0
  else
    let referenceIsValid := ¬ points.any (fun p => strictlyDominatesRef p r)
    let adjusted : Point :=
      if referenceIsValid then r
      else (minFst points + margin (minFst points),
            minSnd points + margin (minSnd points))
    calculate2D (filterDominated points) adjusted

end HypervolumeCalculator

/-- The exposed structural mutations of a solution/route: `addAttraction`,
`removeAttraction`, `swapAttractions`, `insertAttraction`
(src/src/movns-solution.cpp) and `Route::clear` (src/include/models.hpp lines
116-120). -/
inductive StructuralOp where
  | add (attr : Attraction) (mode : TransportMode)
  | remove (index : ℕ)
  | swap (i j : ℕ)
  | insert (attr : Attraction) (position : ℕ)
  | clear

/-- Apply one structural operation.  `clear` empties all three arrays; every
other operation ends with `recalculateTimeInfo()`. -/
def applyOp (env : TransportEnv) (s : SolState) : StructuralOp → SolState
  | .add attr mode => MOVNSSolution.addAttraction env s attr mode
  | .remove index => MOVNSSolution.removeAttraction env s index
  | .swap i j => MOVNSSolution.swapAttractions env s i j
  | .insert attr position => MOVNSSolution.insertAttraction env s attr position
  | .clear => emptyState

/-- Apply a sequence of structural operations to the empty solution. -/
def applyOps (env : TransportEnv) (ops : List StructuralOp) : SolState :=
  ops.foldl (applyOp env) emptyState

/-! Lemmas about the recalculated time-info array. -/

theorem recalcRest_visit (env : TransportEnv) :
    ∀ (rest : List Attraction) (modes : List TransportMode)
      (prev : Attraction) (t : ℚ) (i : ℕ),
      i < (recalcRest env prev modes rest t).length →
      ((recalcRest env prev modes rest t).getD i default).departureTime =
        ((recalcRest env prev modes rest t).getD i default).arrivalTime +
          ((rest.getD i default).visitTime : ℚ)
  | [], _, _, _, _, h => by simp [recalcRest] at h
  | _ :: _, [], _, _, _, h => by simp [recalcRest] at h
  | a :: as, m :: ms, prev, t, 0, _ => by
      simp [recalcRest]
  | a :: as, m :: ms, prev, t, i + 1, h => by
      rw [recalcRest] at h ⊢
      simpa using recalcRest_visit env as ms a _ i (by simpa using h)

theorem recalcRest_head_arrival (env : TransportEnv)
    (a prev : Attraction) (as : List Attraction) (m : TransportMode)
    (ms : List TransportMode) (t : ℚ) :
    ((recalcRest env prev (m :: ms) (a :: as) t).getD 0 default).arrivalTime ≥
      t + Transport.getTravelTime env prev.name a.name m := by
  rw [recalcRest]
  simp only [List.getD_cons_zero]
  split
  · next hcond => linarith [hcond.2]
  · linarith

theorem recalcRest_chain (env : TransportEnv) :
    ∀ (rest : List Attraction) (modes : List TransportMode)
      (prev : Attraction) (t : ℚ) (i : ℕ),
      i + 1 < (recalcRest env prev modes rest t).length →
      ((recalcRest env prev modes rest t).getD (i + 1) default).arrivalTime ≥
        ((recalcRest env prev modes rest t).getD i default).departureTime +
          Transport.getTravelTime env (rest.getD i default).name
            (rest.getD (i + 1) default).name (modes.getD (i + 1) CAR)
  | [], _, _, _, _, h => by simp [recalcRest] at h
  | _ :: _, [], _, _, _, h => by simp [recalcRest] at h
  | a :: as, m :: ms, prev, t, 0, h => by
      rw [recalcRest] at h ⊢
      cases as with
      | nil => simp [recalcRest] at h
      | cons a2 as2 =>
        cases ms with
        | nil => simp [recalcRest] at h
        | cons m2 ms2 =>
          simpa using recalcRest_head_arrival env a2 a as2 m2 ms2 _
  | a :: as, m :: ms, prev, t, i + 1, h => by
      rw [recalcRest] at h ⊢
      simpa using recalcRest_chain env as ms a _ i (by simpa using h)

theorem recalculateTimeInfo_visit (env : TransportEnv)
    (attractions : List Attraction) (modes : List TransportMode) (i : ℕ)
    (h : i < (recalculateTimeInfo env attractions modes).length) :
    ((recalculateTimeInfo env attractions modes).getD i default).departureTime =
      ((recalculateTimeInfo env attractions modes).getD i
          default).arrivalTime +
        ((attractions.getD i default).visitTime : ℚ) := by
  match attractions, i with
  | [], _ => simp [recalculateTimeInfo] at h
  | a :: as, 0 => simp [recalculateTimeInfo]
  | a :: as, i + 1 =>
      rw [recalculateTimeInfo] at h ⊢
      simpa using recalcRest_visit env as modes a _ i (by simpa using h)

theorem recalculateTimeInfo_chain (env : TransportEnv)
    (attractions : List Attraction) (modes : List TransportMode) (i : ℕ)
    (h : i + 1 < (recalculateTimeInfo env attractions modes).length) :
    ((recalculateTimeInfo env attractions modes).getD (i + 1)
        default).arrivalTime ≥
      ((recalculateTimeInfo env attractions modes).getD i
          default).departureTime +
        Transport.getTravelTime env (attractions.getD i default).name
          (attractions.getD (i + 1) default).name (modes.getD i CAR) := by
  match attractions, i with
  | [], _ => simp [recalculateTimeInfo] at h
  | a :: as, 0 =>
      rw [recalculateTimeInfo] at h ⊢
      cases as with
      | nil => simp [recalcRest] at h
      | cons a2 as2 =>
        cases modes with
        | nil => simp [recalcRest] at h
        | cons m2 ms2 =>
          simpa using recalcRest_head_arrival env a2 a as2 m2 ms2 _
  | a :: as, i + 1 =>
      rw [recalculateTimeInfo] at h ⊢
      simpa using recalcRest_chain env as modes a _ i (by simpa using h)

/-- A state whose time-info array is the fresh recalculation of its
attraction/mode arrays — the situation after every exposed structural
operation. -/
def Recalculated (env : TransportEnv) (s : SolState) : Prop :=
  s.timeInfo = recalculateTimeInfo env s.attractions s.transportModes

theorem recalculated_emptyState (env : TransportEnv) :
    Recalculated env emptyState := rfl

theorem recalculated_mkState (env : TransportEnv) (attractions : List Attraction)
    (modes : List TransportMode) :
    Recalculated env (mkState env attractions modes) := rfl

theorem recalculated_applyOp (env : TransportEnv) (s : SolState)
    (op : StructuralOp) (hs : Recalculated env s) :
    Recalculated env (applyOp env s op) := by
  cases op with
  | add attr mode =>
      simp only [applyOp]
      unfold MOVNSSolution.addAttraction
      split
      · exact hs
      · split <;> exact recalculated_mkState env _ _
  | remove index =>
      simp only [applyOp]
      unfold MOVNSSolution.removeAttraction
      split
      · exact hs
      · exact recalculated_mkState env _ _
  | swap i j =>
      simp only [applyOp]
      unfold MOVNSSolution.swapAttractions
      split
      · exact hs
      · exact recalculated_mkState env _ _
  | insert attr position =>
      simp only [applyOp]
      unfold MOVNSSolution.insertAttraction
      split
      · exact hs
      · split
        · exact hs
        · exact recalculated_mkState env _ _
  | clear => exact recalculated_emptyState env

theorem recalculated_foldl (env : TransportEnv) (ops : List StructuralOp) :
    ∀ (s : SolState), Recalculated env s →
      Recalculated env (ops.foldl (applyOp env) s) := by
  induction ops with
  | nil => exact fun s hs => hs
  | cons op rest ih =>
      exact fun s hs => ih _ (recalculated_applyOp env s op hs)

theorem recalculated_applyOps (env : TransportEnv) (ops : List StructuralOp) :
    Recalculated env (applyOps env ops) :=
  recalculated_foldl env ops emptyState (recalculated_emptyState env)

/-- C7: for any route reached by any sequence of the exposed structural
operations, the recalculated time-info array satisfies
`departure_i - arrival_i = visit_i` at every position and
`arrival_{i+1} ≥ departure_i + travel_time(a_i, a_{i+1}, m_i)` at every
adjacent pair. -/
theorem structural_ops_time_info_invariant (env : TransportEnv)
    (ops : List StructuralOp) :
    (∀ i, i < (applyOps env ops).timeInfo.length →
        ((applyOps env ops).timeInfo.getD i default).departureTime -
            ((applyOps env ops).timeInfo.getD i default).arrivalTime =
          (((applyOps env ops).attractions.getD i default).visitTime : ℚ)) ∧
    (∀ i, i + 1 < (applyOps env ops).timeInfo.length →
        ((applyOps env ops).timeInfo.getD (i + 1) default).arrivalTime ≥
          ((applyOps env ops).timeInfo.getD i default).departureTime +
            Transport.getTravelTime env
              ((applyOps env ops).attractions.getD i default).name
              ((applyOps env ops).attractions.getD (i + 1) default).name
              ((applyOps env ops).transportModes.getD i CAR)) := by
  have hrec := recalculated_applyOps env ops
  rw [Recalculated] at hrec
  constructor
  · intro i h
    rw [hrec] at h ⊢
    have := recalculateTimeInfo_visit env (applyOps env ops).attractions
      (applyOps env ops).transportModes i h
    linarith
  · intro i h
    rw [hrec] at h ⊢
    exact recalculateTimeInfo_chain env (applyOps env ops).attractions
      (applyOps env ops).transportModes i h

/-! Concrete environments, attractions and states used in witnesses and
counterexamples. -/

/-- A transport oracle in which every walk takes 20 minutes — above the
15-minute walking preference. -/
def envWalk20 : TransportEnv :=
  ⟨fun _ _ => 500, fun _ _ => 400, fun _ _ => 5, fun _ _ => 20⟩

/-- A transport oracle whose car-distance matrix holds a corrupt negative
cell. -/
def envNeg : TransportEnv :=
  ⟨fun _ _ => -1000, fun _ _ => 400, fun _ _ => 5, fun _ _ => 10⟩

/-- A fixed transport oracle used for concrete instances: walking takes 10
minutes, driving 5 minutes over 500 metres, everywhere. -/
def demoEnv : TransportEnv :=
  ⟨fun _ _ => 500, fun _ _ => 400, fun _ _ => 5, fun _ _ => 10⟩

/-- Concrete attraction: open all day, 60-minute visit, R$10 entrance. -/
def attrA : Attraction := ⟨"A", "N1", 60, 10, 0, 1439⟩

/-- Concrete attraction: open 09:00-15:00, 30-minute visit, R$20 entrance. -/
def attrB : Attraction := ⟨"B", "N2", 30, 20, 540, 900⟩

/-- Concrete operation sequence: append `attrA`, then `attrB`, with the
default mode argument. -/
def demoOps : List StructuralOp :=
  [StructuralOp.add attrA CAR, StructuralOp.add attrB CAR]

/-- Witness for C7 at a concrete route: both hypotheses are discharged on the
two-attraction route built by `demoOps`. -/
theorem structural_ops_time_info_invariant_witness :
    (((applyOps demoEnv demoOps).timeInfo.getD 0 default).departureTime -
          ((applyOps demoEnv demoOps).timeInfo.getD 0 default).arrivalTime =
        (((applyOps demoEnv demoOps).attractions.getD 0
            default).visitTime : ℚ)) ∧
      ((applyOps demoEnv demoOps).timeInfo.getD 1 default).arrivalTime ≥
        ((applyOps demoEnv demoOps).timeInfo.getD 0 default).departureTime +
          Transport.getTravelTime demoEnv
            ((applyOps demoEnv demoOps).attractions.getD 0 default).name
            ((applyOps demoEnv demoOps).attractions.getD 1 default).name
            ((applyOps demoEnv demoOps).transportModes.getD 0 CAR) :=
  ⟨(structural_ops_time_info_invariant demoEnv demoOps).1 0 (by decide),
   (structural_ops_time_info_invariant demoEnv demoOps).2 0 (by decide)⟩

/-- C1: `Solution::dominates` in src/src/models.cpp is not a strict partial
order.  At the concrete empty-route solution `u` (objective vector
`(0, 0, -0)`), `u.dominates(u)` evaluates to `true`, and on the incomparable
vectors `(0, 1, 0)` and `(1, 0, 0)` both directions of `dominates` evaluate
to `true` — `dominates` returns `isDominatedBy(other)`, the negation of
strict dominance. -/
theorem solution_dominates_not_strict :
    Solution.dominates (Solution.calculateObjectives demoEnv emptyState)
        (Solution.calculateObjectives demoEnv emptyState) = Except.ok true ∧
      Solution.dominates [0, 1, 0] [1, 0, 0] = Except.ok true ∧
      Solution.dominates [1, 0, 0] [0, 1, 0] = Except.ok true :=
  ⟨rfl, rfl, rfl⟩

/-- The cost computed by `MOVNSSolution::getTotalCost` is non-negative: it is
a sum of terms each clamped by `max(0.0, _)`. -/
theorem movns_getTotalCost_nonneg (env : TransportEnv) (s : SolState) :
    0 ≤ MOVNSSolution.getTotalCost env s := by
  unfold MOVNSSolution.getTotalCost
  refine add_nonneg (List.sum_nonneg ?_) (List.sum_nonneg ?_) <;>
    · intro x hx
      obtain ⟨y, _, rfl⟩ := List.mem_map.mp hx
      exact le_max_left 0 _

/-- C3 (amended): `MOVNSSolution::getObjectives` returns the clamped total
cost verbatim, the total time plus the quadratic overrun penalty whose
divisor is the tolerance-scaled limit `DAILY_TIME_LIMIT * (1 + TOLERANCE)`
(not `DAILY_TIME_LIMIT`), zero penalty at or below that threshold, and the
negated attraction and neighborhood counts verbatim. -/
theorem movns_getObjectives_spec (env : TransportEnv) (s : SolState) :
    MOVNSSolution.getObjectives env s =
      [MOVNSSolution.getTotalCost env s,
       MOVNSSolution.getTotalTime env s +
         (if MOVNSSolution.getTotalTime env s >
             DAILY_TIME_LIMIT * (1 + TOLERANCE) then
            (MOVNSSolution.getTotalTime env s -
                DAILY_TIME_LIMIT * (1 + TOLERANCE)) *
              (1 + (MOVNSSolution.getTotalTime env s -
                  DAILY_TIME_LIMIT * (1 + TOLERANCE)) /
                (DAILY_TIME_LIMIT * (1 + TOLERANCE)))
          else 0),
       -(MOVNSSolution.getNumAttractions s : ℚ),
       -(MOVNSSolution.numNeighborhoods s : ℚ)] := by
  unfold MOVNSSolution.getObjectives
  rw [max_eq_right (movns_getTotalCost_nonneg env s)]

/-- An attraction whose visit alone takes 1848 minutes, used to exercise the
overrun penalty. -/
def attrLong : Attraction := ⟨"L", "N1", 1848, 0, 0, 1439⟩

/-- The single-attraction solution around `attrLong`. -/
def solLong : SolState := mkState demoEnv [attrLong] []

/-- C3 (counterexample): on `solLong` the total un-penalized time is 1848 >
840 · 1.1 = 924, the code computes objective axis 1 as
`1848 + 924 · (1 + 924/924) = 3696`, while the claimed formula
`total_time + v · (1 + v / DAILY_LIMIT)` with `v = 924` gives
`1848 + 924 · (1 + 924/840) = 18942/5 ≠ 3696`. -/
theorem movns_penalty_divisor_counterexample :
    MOVNSSolution.getTotalTime demoEnv solLong = 1848 ∧
      (MOVNSSolution.getObjectives demoEnv solLong).getD 1 0 = 3696 ∧
      (MOVNSSolution.getObjectives demoEnv solLong).getD 1 0 ≠
        MOVNSSolution.getTotalTime demoEnv solLong +
          (MOVNSSolution.getTotalTime demoEnv solLong -
              DAILY_TIME_LIMIT * (1 + TOLERANCE)) *
            (1 + (MOVNSSolution.getTotalTime demoEnv solLong -
                DAILY_TIME_LIMIT * (1 + TOLERANCE)) / DAILY_TIME_LIMIT) := by
  refine ⟨by decide, by decide, ?_⟩
  decide

/-- The two-attraction route of src/src/models.cpp built by
`Route::addAttraction` with a caller-forced WALK mode on a 20-minute walking
segment. -/
def routeForcedWalk : SolState :=
  Route.addAttraction envWalk20
    (Route.addAttraction envWalk20 emptyState attrA CAR) attrB WALK

/-- C4 (counterexample): `Route::isValid` accepts a route with a WALK segment
of walking time 20 > 15 — it checks only opening hours and the daily budget,
never the walking cap. -/
theorem route_isValid_walk_counterexample :
    routeForcedWalk.transportModes = [WALK] ∧
      envWalk20.walkTime "A" "B" > WALK_TIME_PREFERENCE ∧
      Route.isValid envWalk20 routeForcedWalk = true := by
  refine ⟨by decide, by decide, ?_⟩
  decide

/-- C4 (amended): `MOVNSSolution::isValid` does reject every solution with a
WALK segment whose walking time exceeds `WALK_TIME_PREFERENCE`, via
`respectsWalkingLimit`. -/
theorem movns_isValid_walking_cap (env : TransportEnv) (s : SolState)
    (h : ∃ seg ∈ MOVNSSolution.segments s, seg.2.2 = WALK ∧
      env.walkTime seg.1.name seg.2.1.name > WALK_TIME_PREFERENCE) :
    MOVNSSolution.isValid env s = false := by
  obtain ⟨seg, hmem, hwalk, hgt⟩ := h
  have hlimit : MOVNSSolution.respectsWalkingLimit env s = false := by
    unfold MOVNSSolution.respectsWalkingLimit
    rw [List.all_eq_false]
    refine ⟨seg, hmem, ?_⟩
    rw [hwalk]
    simpa using hgt
  unfold MOVNSSolution.isValid
  split
  · rfl
  · split
    · rfl
    · rw [hlimit]
      simp

/-- The MOVNS solution with the same illegal WALK segment. -/
def solForcedWalk : SolState := mkState envWalk20 [attrA, attrB] [WALK]

/-- Witness for C4 (amended) at `solForcedWalk`. -/
theorem movns_isValid_walking_cap_witness :
    MOVNSSolution.isValid envWalk20 solForcedWalk = false :=
  movns_isValid_walking_cap envWalk20 solForcedWalk (by decide)

/-- C5 (amended): for loaded attraction names, `Transport::getTravelCost`
returns 0 for WALK and exactly `carDist / 1000 * COST_CAR_PER_KM` for CAR,
with no non-negative clamping. -/
theorem getTravelCost_spec (env : TransportEnv) (a b : String) :
    Transport.getTravelCost env a b WALK = 0 ∧
      Transport.getTravelCost env a b CAR =
        env.carDist a b / 1000 * COST_CAR_PER_KM :=
  ⟨rfl, rfl⟩

/-- C5 (counterexample): with a corrupt negative car-distance cell of
-1000 m, `getTravelCost` returns -6, not the claimed clamped value 0. -/
theorem getTravelCost_negative_counterexample :
    envNeg.carDist "A" "B" = -1000 ∧
      Transport.getTravelCost envNeg "A" "B" CAR = -6 ∧
      Transport.getTravelCost envNeg "A" "B" CAR ≠ 0 := by
  refine ⟨by decide, by decide, by decide⟩

/-- The single-attraction MOVNS solution used when appending a second one. -/
def solA20 : SolState := mkState envWalk20 [attrA] []

/-- C6 (counterexample): `MOVNSSolution::addAttraction` with a caller-supplied
WALK stores the WALK segment verbatim even though the walking time is
20 > 15 — the CAR upgrade only runs when the caller passes CAR. -/
theorem movns_addAttraction_forced_walk_counterexample :
    envWalk20.walkTime "A" "B" > WALK_TIME_PREFERENCE ∧
      (MOVNSSolution.addAttraction envWalk20 solA20 attrB
          WALK).transportModes = [WALK] := by
  refine ⟨by decide, by decide⟩

/-- C6 (amended): when the caller passes the default `CAR` argument, the new
segment is never an illegal WALK: with walking time above the preference the
appended mode is CAR. -/
theorem movns_addAttraction_default_mode (env : TransportEnv) (s : SolState)
    (attr prev : Attraction)
    (hlast : s.attractions.getLast? = some prev)
    (hdup : s.attractions.any (fun existing =>
      existing.name = attr.name) = false)
    (hwalk : env.walkTime prev.name attr.name > WALK_TIME_PREFERENCE) :
    (MOVNSSolution.addAttraction env s attr CAR).transportModes =
      s.transportModes ++ [CAR] := by
  unfold MOVNSSolution.addAttraction
  rw [hdup]
  simp only [Bool.false_eq_true, if_false, hlast]
  have hmode : defaultedMode env prev.name attr.name = CAR := by
    unfold defaultedMode
    rw [if_pos hwalk]
  simp [hmode, mkState]

/-- Witness for C6 (amended): appending `attrB` to `solA20` with the default
argument yields a CAR segment. -/
theorem movns_addAttraction_default_mode_witness :
    (MOVNSSolution.addAttraction envWalk20 solA20 attrB
        CAR).transportModes = solA20.transportModes ++ [CAR] :=
  movns_addAttraction_default_mode envWalk20 solA20 attrB attrA (by decide)
    (by decide) (by decide)

/-- `insertIdx` at a position within bounds is a permutation of consing. -/
theorem insertIdx_perm_cons {α : Type} (a : α) :
    ∀ (n : ℕ) (l : List α), n ≤ l.length → (l.insertIdx n a).Perm (a :: l)
  | 0, l, _ => by simp
  | n + 1, [], h => by simp at h
  | n + 1, x :: xs, h => by
      rw [List.insertIdx_succ_cons]
      exact ((insertIdx_perm_cons a n xs (Nat.le_of_succ_le_succ h)).cons
        x).trans (List.Perm.swap a x xs)

/-- C10: `MOVNSSolution::addAttraction` and `insertAttraction` on a solution
that already contains an attraction of the same name leave the solution
entirely unchanged, and both operations preserve freedom from duplicate
names — so no sequence of them ever produces a duplicate. -/
theorem movns_duplicate_and_nodup (env : TransportEnv) (s : SolState)
    (attr : Attraction) (mode : TransportMode) (position : ℕ) :
    ((∃ a ∈ s.attractions, a.name = attr.name) →
        MOVNSSolution.addAttraction env s attr mode = s ∧
          MOVNSSolution.insertAttraction env s attr position = s) ∧
      ((s.attractions.map (fun a => a.name)).Nodup →
        ((MOVNSSolution.addAttraction env s attr
              mode).attractions.map (fun a => a.name)).Nodup ∧
          ((MOVNSSolution.insertAttraction env s attr
              position).attractions.map (fun a => a.name)).Nodup) := by
  constructor
  · rintro ⟨a, hmem, hname⟩
    have hany : s.attractions.any
        (fun existing => existing.name = attr.name) = true :=
      List.any_eq_true.mpr ⟨a, hmem, by simp [hname]⟩
    constructor
    · unfold MOVNSSolution.addAttraction
      rw [if_pos hany]
    · unfold MOVNSSolution.insertAttraction
      split
      · rfl
      · simp [hany]
  · intro hnodup
    constructor
    · by_cases hany : s.attractions.any
        (fun existing => existing.name = attr.name) = true
      · unfold MOVNSSolution.addAttraction
        rw [if_pos hany]
        exact hnodup
      · have hnot : ∀ a ∈ s.attractions, a.name ≠ attr.name := by
          intro a ha
          have := List.any_eq_false.mp (Bool.eq_false_iff.mpr hany) a ha
          simpa using this
        have hresult : (MOVNSSolution.addAttraction env s attr
            mode).attractions = s.attractions ++ [attr] := by
          unfold MOVNSSolution.addAttraction
          rw [if_neg hany]
          split <;> rfl
        rw [hresult]
        have hperm : ((s.attractions ++ [attr]).map (fun a => a.name)).Perm
            (attr.name :: s.attractions.map (fun a => a.name)) :=
          (List.perm_append_singleton attr s.attractions).map (fun a => a.name)
        rw [hperm.nodup_iff]
        refine List.Nodup.cons ?_ hnodup
        intro hmem
        obtain ⟨a, ha, hn⟩ := List.mem_map.mp hmem
        exact hnot a ha hn
    · by_cases hpos : position > s.attractions.length
      · unfold MOVNSSolution.insertAttraction
        rw [if_pos hpos]
        exact hnodup
      · by_cases hany : s.attractions.any
          (fun existing => existing.name = attr.name) = true
        · unfold MOVNSSolution.insertAttraction
          rw [if_neg hpos, if_pos hany]
          exact hnodup
        · have hnot : ∀ a ∈ s.attractions, a.name ≠ attr.name := by
            intro a ha
            have := List.any_eq_false.mp (Bool.eq_false_iff.mpr hany) a ha
            simpa using this
          have hresult : (MOVNSSolution.insertAttraction env s attr
              position).attractions =
                s.attractions.insertIdx position attr := by
            unfold MOVNSSolution.insertAttraction
            rw [if_neg hpos, if_neg hany]
            rfl
          rw [hresult]
          have hperm : ((s.attractions.insertIdx position attr).map
              (fun a => a.name)).Perm
                (attr.name :: s.attractions.map (fun a => a.name)) :=
            (insertIdx_perm_cons attr position s.attractions
              (Nat.le_of_not_lt hpos)).map (fun a => a.name)
          rw [hperm.nodup_iff]
          refine List.Nodup.cons ?_ hnodup
          intro hmem
          obtain ⟨a, ha, hn⟩ := List.mem_map.mp hmem
          exact hnot a ha hn

/-- The single-attraction MOVNS solution over the demo oracle. -/
def solA : SolState := mkState demoEnv [attrA] []

/-- Witness for C10: re-adding or re-inserting `attrA` into `solA` leaves it
unchanged. -/
theorem movns_duplicate_and_nodup_witness :
    MOVNSSolution.addAttraction demoEnv solA attrA CAR = solA ∧
      MOVNSSolution.insertAttraction demoEnv solA attrA 0 = solA :=
  (movns_duplicate_and_nodup demoEnv solA attrA CAR 0).1
    ⟨attrA, by decide, rfl⟩

/-- C8 (amended): for a valid candidate, `MOVNS::updateApproximationSet`
rejects it exactly when some incumbent dominates it (returning `false` with
the set unchanged), otherwise removes the incumbents the candidate dominates
and appends it (returning `true`); and every update preserves pairwise
non-dominance of the approximation set. -/
theorem movns_updateApproximationSet_spec (env : TransportEnv)
    (pApprox : List SolState) (solution : SolState)
    (hvalid : MOVNSSolution.isValid env solution = true) :
    ((pApprox.any (fun existing =>
          MOVNSSolution.dominates env existing solution) = true →
        MOVNS.updateApproximationSet env pApprox solution =
          (false, pApprox)) ∧
      (pApprox.any (fun existing =>
          MOVNSSolution.dominates env existing solution) = false →
        MOVNS.updateApproximationSet env pApprox solution =
          (true, pApprox.filter (fun existing =>
            ¬ MOVNSSolution.dominates env solution existing) ++
              [solution]))) ∧
      (List.Pairwise (fun a b => MOVNSSolution.dominates env a b = false ∧
          MOVNSSolution.dominates env b a = false) pApprox →
        List.Pairwise (fun a b => MOVNSSolution.dominates env a b = false ∧
          MOVNSSolution.dominates env b a = false)
          (MOVNS.updateApproximationSet env pApprox solution).2) := by
  have hnv : ¬ (¬ MOVNSSolution.isValid env solution) := by simp [hvalid]
  constructor
  · constructor
    · intro hany
      unfold MOVNS.updateApproximationSet
      rw [if_neg hnv, if_pos hany]
    · intro hany
      unfold MOVNS.updateApproximationSet
      rw [if_neg hnv, if_neg (by simp [hany])]
  · intro hpw
    by_cases hany : pApprox.any (fun existing =>
        MOVNSSolution.dominates env existing solution) = true
    · have : MOVNS.updateApproximationSet env pApprox solution =
          (false, pApprox) := by
        unfold MOVNS.updateApproximationSet
        rw [if_neg hnv, if_pos hany]
      rw [this]
      exact hpw
    · have hres : MOVNS.updateApproximationSet env pApprox solution =
          (true, pApprox.filter (fun existing =>
            ¬ MOVNSSolution.dominates env solution existing) ++
              [solution]) := by
        unfold MOVNS.updateApproximationSet
        rw [if_neg hnv, if_neg hany]
      rw [hres]
      have hnone := List.any_eq_false.mp (Bool.eq_false_iff.mpr hany)
      refine List.pairwise_append.mpr
        ⟨hpw.sublist (List.filter_sublist _), List.pairwise_singleton _ _, ?_⟩
      intro a ha b hb
      rw [List.mem_singleton] at hb
      subst hb
      constructor
      · have := hnone a (List.mem_of_mem_filter ha)
        simpa using this
      · have := (List.mem_filter.mp ha).2
        simpa using this

/-- C8 (counterexample): the invalid empty candidate is dominated by no
incumbent of the empty approximation set, yet `updateApproximationSet`
returns `false` and does not append it — the claim as stated would require
`(true, [emptyState])`. -/
theorem movns_updateApproximationSet_invalid_counterexample :
    MOVNS.updateApproximationSet demoEnv [] emptyState = (false, []) ∧
      MOVNSSolution.isValid demoEnv emptyState = false ∧
      ([] : List SolState).any (fun existing =>
        MOVNSSolution.dominates demoEnv existing emptyState) = false :=
  ⟨rfl, rfl, rfl⟩

/-- Witness for C8 (amended): inserting the valid `solA` into the empty set
appends it and returns `true`. -/
theorem movns_updateApproximationSet_spec_witness :
    MOVNS.updateApproximationSet demoEnv [] solA = (true, [solA]) := by
  have h := ((movns_updateApproximationSet_spec demoEnv [] solA
    (by decide)).1).2 rfl
  simpa using h

/-! Hypervolume lemmas. -/

namespace HypervolumeCalculator

theorem one_le_margin (v : ℚ) : 1 ≤ margin v := le_max_right _ _

theorem calculate2D_singleton (p r : Point) (hx : p.1 < r.1)
    (hy : p.2 < r.2) :
    calculate2D [p] r = (r.1 - p.1) * (r.2 - p.2) := by
  unfold calculate2D sortByFst insertByFst
  rw [if_neg (by simp)]
  show ((List.foldl (sweepStep r) ((0 : ℚ), r.1, r.2) [p])).1 =
    (r.1 - p.1) * (r.2 - p.2)
  rw [List.foldl_cons, List.foldl_nil]
  unfold sweepStep
  rw [if_neg, if_pos]
  · show (0 : ℚ) + (r.1 - p.1) * (r.2 - p.2) = (r.1 - p.1) * (r.2 - p.2)
    ring
  · exact hy
  · simp [not_le.mpr hx, not_le.mpr hy]

/-- C2 (amended): at two objectives, for a singleton `{p}` and a reference
`r` strictly dominated by `p` on both (minimization) axes, the calculator
declares `r` invalid, replaces it by `(p_i + max(0.1*|p_i|, 1))`, and returns
`margin(p_1) * margin(p_2)` — a value independent of `r`, not
`prod max(0, r_i - p_i)`. -/
theorem calculate_singleton_strictly_dominated (p r : Point)
    (hx : p.1 < r.1) (hy : p.2 < r.2) :
    calculate [p] r = margin p.1 * margin p.2 := by
  unfold calculate
  rw [if_neg (by simp)]
  show calculate2D (filterDominated [p])
      (if (¬ ([p].any fun q => strictlyDominatesRef q r) = true) then r
       else (minFst [p] + margin (minFst [p]),
             minSnd [p] + margin (minSnd [p]))) =
    margin p.1 * margin p.2
  rw [if_neg (by simp [strictlyDominatesRef, hx, hy])]
  have hfil : filterDominated [p] = [p] := rfl
  have hminf : minFst [p] = p.1 := rfl
  have hmins : minSnd [p] = p.2 := rfl
  rw [hfil, hminf, hmins]
  have h1 : p.1 < p.1 + margin p.1 := by
    have := one_le_margin p.1
    linarith
  have h2 : p.2 < p.2 + margin p.2 := by
    have := one_le_margin p.2
    linarith
  rw [calculate2D_singleton p _ h1 h2]
  ring

/-- C2 (counterexample): `calculate {(1,1)}` against reference `(3,3)` — the
reference is strictly dominated, as the claim requires — returns 1, not the
claimed `max(0, 3-1) * max(0, 3-1) = 4`. -/
theorem calculate_singleton_counterexample :
    calculate [((1 : ℚ), (1 : ℚ))] ((3 : ℚ), (3 : ℚ)) = 1 ∧
      (max 0 ((3 : ℚ) - 1) * max 0 ((3 : ℚ) - 1) = 4) ∧
      (1 : ℚ) ≠ 4 := by
  refine ⟨?_, by norm_num, by norm_num⟩
  have h := calculate_singleton_strictly_dominated ((1 : ℚ), (1 : ℚ))
    ((3 : ℚ), (3 : ℚ)) (by norm_num) (by norm_num)
  rw [h]
  norm_num [margin]

/-- Witness for C2 (amended) at `p = (1,1)`, `r = (3,3)`: the computed value
is `margin(1) * margin(1) = 1`. -/
theorem calculate_singleton_strictly_dominated_witness :
    calculate [((1 : ℚ), (1 : ℚ))] ((3 : ℚ), (3 : ℚ)) =
      margin 1 * margin 1 :=
  calculate_singleton_strictly_dominated ((1 : ℚ), (1 : ℚ))
    ((3 : ℚ), (3 : ℚ)) (by norm_num) (by norm_num)

theorem Point.dominates_iff (p q : Point) :
    Point.dominates p q = true ↔
      p.1 ≤ q.1 ∧ p.2 ≤ q.2 ∧ (p.1 < q.1 ∨ p.2 < q.2) := by
  unfold Point.dominates
  split_ifs with h1 h2
  · simp only [Bool.false_eq_true, false_iff]
    rintro ⟨ha, -, -⟩
    linarith
  · simp only [Bool.false_eq_true, false_iff]
    rintro ⟨-, hb, -⟩
    linarith
  · push_neg at h1 h2
    simp only [Bool.or_eq_true, decide_eq_true_eq]
    exact ⟨fun h => ⟨h1, h2, h⟩, fun h => h.2.2⟩

theorem Point.dominates_trans {a b c : Point}
    (hab : Point.dominates a b = true) (hbc : Point.dominates b c = true) :
    Point.dominates a c = true := by
  rw [Point.dominates_iff] at hab hbc ⊢
  obtain ⟨h1, h2, h3⟩ := hab
  obtain ⟨g1, g2, g3⟩ := hbc
  refine ⟨le_trans h1 g1, le_trans h2 g2, ?_⟩
  cases h3 with
  | inl h => exact Or.inl (lt_of_lt_of_le h g1)
  | inr h => exact Or.inr (lt_of_lt_of_le h g2)

/-- A point of the input is covered by the running non-dominated accumulator:
it is present, or dominated by a present point. -/
def Covers (l : List Point) (s : Point) : Prop :=
  ∃ t ∈ l, t = s ∨ Point.dominates t s = true

theorem covers_filterStep (acc : List Point) (p s : Point)
    (h : Covers acc s) : Covers (filterStep acc p) s := by
  obtain ⟨t, htm, hts⟩ := h
  unfold filterStep
  split_ifs with hdom
  · exact ⟨t, htm, hts⟩
  · by_cases hpt : Point.dominates p t = true
    · refine ⟨p, List.mem_append_right _ (List.mem_singleton_self p),
        Or.inr ?_⟩
      cases hts with
      | inl h => exact h ▸ hpt
      | inr h => exact Point.dominates_trans hpt h
    · exact ⟨t, List.mem_append_left _
        (List.mem_filter.mpr ⟨htm, by simpa using hpt⟩), hts⟩

theorem covers_filterStep_self (acc : List Point) (p : Point) :
    Covers (filterStep acc p) p := by
  unfold filterStep
  split_ifs with hdom
  · obtain ⟨t, htm, htp⟩ := List.any_eq_true.mp hdom
    exact ⟨t, htm, Or.inr htp⟩
  · exact ⟨p, List.mem_append_right _ (List.mem_singleton_self p), Or.inl rfl⟩

theorem covers_foldl (ps : List Point) :
    ∀ (acc : List Point) (s : Point), Covers acc s →
      Covers (ps.foldl filterStep acc) s := by
  induction ps with
  | nil => exact fun acc s h => h
  | cons p rest ih =>
      exact fun acc s h => ih _ s (covers_filterStep acc p s h)

theorem covers_foldl_mem (ps : List Point) :
    ∀ (acc : List Point) (s : Point), s ∈ ps →
      Covers (ps.foldl filterStep acc) s := by
  induction ps with
  | nil => intro acc s h; exact absurd h (List.not_mem_nil s)
  | cons p rest ih =>
      intro acc s h
      rcases List.mem_cons.mp h with rfl | hmem
      · exact covers_foldl rest _ s (covers_filterStep_self acc s)
      · exact ih _ s hmem

theorem filterDominated_append_of_dominated (ps : List Point) (q : Point)
    (hq : ∃ s ∈ ps, Point.dominates s q = true) :
    filterDominated (ps ++ [q]) = filterDominated ps := by
  obtain ⟨s, hsm, hsq⟩ := hq
  unfold filterDominated
  by_cases hlen : ps.length < 2
  · match ps, hsm with
    | [x], hsm =>
      have hx : s = x := by simpa using hsm
      subst hx
      rw [if_neg (by simp), if_pos (by simp)]
      show filterStep (filterStep [] s) q = [s]
      have h1 : filterStep [] s = [s] := rfl
      rw [h1]
      unfold filterStep
      rw [if_pos]
      exact List.any_eq_true.mpr ⟨s, List.mem_singleton_self s, hsq⟩
  · have hlen2 : ¬ (ps ++ [q]).length < 2 := by
      simp only [List.length_append, List.length_singleton]
      omega
    rw [if_neg hlen2, if_neg hlen, List.foldl_append]
    obtain ⟨t, htm, hts⟩ := covers_foldl_mem ps [] s hsm
    have htq : Point.dominates t q = true := by
      cases hts with
      | inl h => exact h ▸ hsq
      | inr h => exact Point.dominates_trans h hsq
    show filterStep (ps.foldl filterStep []) q = ps.foldl filterStep []
    unfold filterStep
    rw [if_pos]
    exact List.any_eq_true.mpr ⟨t, htm, htq⟩

theorem foldl_min_le_init (g : Point → ℚ) :
    ∀ (l : List Point) (a : ℚ),
      l.foldl (fun m x => min m (g x)) a ≤ a
  | [], a => le_refl a
  | x :: xs, a =>
      le_trans (foldl_min_le_init g xs (min a (g x))) (min_le_left _ _)

theorem foldl_min_le_mem (g : Point → ℚ) :
    ∀ (l : List Point) (a : ℚ) (s : Point), s ∈ l →
      l.foldl (fun m x => min m (g x)) a ≤ g s
  | [], _, _, hs => absurd hs (List.not_mem_nil _)
  | x :: xs, a, s, hs => by
      rcases List.mem_cons.mp hs with rfl | hmem
      · exact le_trans (foldl_min_le_init g xs (min a (g s)))
          (min_le_right _ _)
      · exact foldl_min_le_mem g xs (min a (g x)) s hmem

theorem minFst_le_of_mem (ps : List Point) (s : Point) (h : s ∈ ps) :
    minFst ps ≤ s.1 := by
  match ps, h with
  | p :: rest, h =>
      unfold minFst
      rcases List.mem_cons.mp h with rfl | hmem
      · exact foldl_min_le_init (fun x => x.1) rest s.1
      · exact foldl_min_le_mem (fun x => x.1) rest p.1 s hmem

theorem minSnd_le_of_mem (ps : List Point) (s : Point) (h : s ∈ ps) :
    minSnd ps ≤ s.2 := by
  match ps, h with
  | p :: rest, h =>
      unfold minSnd
      rcases List.mem_cons.mp h with rfl | hmem
      · exact foldl_min_le_init (fun x => x.2) rest s.2
      · exact foldl_min_le_mem (fun x => x.2) rest p.2 s hmem

theorem minFst_append_singleton (ps : List Point) (q : Point)
    (h : ∃ s ∈ ps, s.1 ≤ q.1) : minFst (ps ++ [q]) = minFst ps := by
  obtain ⟨s, hsm, hs1⟩ := h
  match ps, hsm with
  | p :: rest, hsm =>
      show (rest ++ [q]).foldl (fun m x => min m x.1) p.1 =
        rest.foldl (fun m x => min m x.1) p.1
      rw [List.foldl_append, List.foldl_cons, List.foldl_nil]
      exact min_eq_left (le_trans (minFst_le_of_mem (p :: rest) s hsm) hs1)

theorem minSnd_append_singleton (ps : List Point) (q : Point)
    (h : ∃ s ∈ ps, s.2 ≤ q.2) : minSnd (ps ++ [q]) = minSnd ps := by
  obtain ⟨s, hsm, hs2⟩ := h
  match ps, hsm with
  | p :: rest, hsm =>
      show (rest ++ [q]).foldl (fun m x => min m x.2) p.2 =
        rest.foldl (fun m x => min m x.2) p.2
      rw [List.foldl_append, List.foldl_cons, List.foldl_nil]
      exact min_eq_left (le_trans (minSnd_le_of_mem (p :: rest) s hsm) hs2)

theorem any_strictlyDominatesRef_append (ps : List Point) (q r : Point)
    (hdom : ∃ s ∈ ps, Point.dominates s q = true) :
    ((ps ++ [q]).any fun p => strictlyDominatesRef p r) =
      (ps.any fun p => strictlyDominatesRef p r) := by
  rw [List.any_append]
  cases hq : strictlyDominatesRef q r with
  | false => simp [hq]
  | true =>
      obtain ⟨s, hsm, hsq⟩ := hdom
      rw [Point.dominates_iff] at hsq
      have hs : strictlyDominatesRef s r = true := by
        unfold strictlyDominatesRef at hq ⊢
        simp only [Bool.and_eq_true, decide_eq_true_eq] at hq ⊢
        exact ⟨lt_of_le_of_lt hsq.1 hq.1, lt_of_le_of_lt hsq.2.1 hq.2⟩
      have hany : (ps.any fun p => strictlyDominatesRef p r) = true :=
        List.any_eq_true.mpr ⟨s, hsm, hs⟩
      simp [hany]

/-- C9 (amended): at two objectives, appending a point dominated by some
member of the set never changes the computed hypervolume — the dominated
point is filtered out, and it moves neither the reference-validity test nor
the per-axis minima used by the automatic reference adjustment. -/
theorem calculate_append_dominated (ps : List Point) (q r : Point)
    (hq : ∃ s ∈ ps, Point.dominates s q = true) :
    calculate (ps ++ [q]) r = calculate ps r := by
  obtain ⟨s, hsm, hsq⟩ := hq
  have hne : ps ≠ [] := by rintro rfl; simp at hsm
  have hsq1 : s.1 ≤ q.1 := ((Point.dominates_iff s q).mp hsq).1
  have hsq2 : s.2 ≤ q.2 := ((Point.dominates_iff s q).mp hsq).2.1
  unfold calculate
  rw [if_neg (by simp), if_neg hne]
  show calculate2D (filterDominated (ps ++ [q]))
      (if (¬ ((ps ++ [q]).any fun p => strictlyDominatesRef p r) = true)
       then r
       else (minFst (ps ++ [q]) + margin (minFst (ps ++ [q])),
             minSnd (ps ++ [q]) + margin (minSnd (ps ++ [q])))) =
    calculate2D (filterDominated ps)
      (if (¬ (ps.any fun p => strictlyDominatesRef p r) = true) then r
       else (minFst ps + margin (minFst ps),
             minSnd ps + margin (minSnd ps)))
  rw [filterDominated_append_of_dominated ps q ⟨s, hsm, hsq⟩,
    any_strictlyDominatesRef_append ps q r ⟨s, hsm, hsq⟩,
    minFst_append_singleton ps q ⟨s, hsm, hsq1⟩,
    minSnd_append_singleton ps q ⟨s, hsm, hsq2⟩]

/-- C9 (counterexample): adding the non-dominated point `(0,5)` to `{(1,1)}`
with reference `(10,10)` moves the auto-adjusted reference and DECREASES the
computed hypervolume from 1 to 0. -/
theorem calculate_add_nondominated_counterexample :
    calculate [((1 : ℚ), (1 : ℚ))] ((10 : ℚ), (10 : ℚ)) = 1 ∧
      calculate [((1 : ℚ), (1 : ℚ)), ((0 : ℚ), (5 : ℚ))]
        ((10 : ℚ), (10 : ℚ)) = 0 ∧
      Point.dominates ((1 : ℚ), (1 : ℚ)) ((0 : ℚ), (5 : ℚ)) = false ∧
      Point.dominates ((0 : ℚ), (5 : ℚ)) ((1 : ℚ), (1 : ℚ)) = false ∧
      (0 : ℚ) < 1 := by
  refine ⟨?_, by decide, by decide, by decide, by norm_num⟩
  have h := calculate_singleton_strictly_dominated ((1 : ℚ), (1 : ℚ))
    ((10 : ℚ), (10 : ℚ)) (by norm_num) (by norm_num)
  rw [h]
  norm_num [margin]

/-- Witness for C9 (amended): appending the dominated point `(2,2)` to
`{(1,1)}` leaves the hypervolume at 1. -/
theorem calculate_append_dominated_witness :
    calculate [((1 : ℚ), (1 : ℚ)), ((2 : ℚ), (2 : ℚ))]
        ((10 : ℚ), (10 : ℚ)) =
      calculate [((1 : ℚ), (1 : ℚ))] ((10 : ℚ), (10 : ℚ)) :=
  calculate_append_dominated [((1 : ℚ), (1 : ℚ))] ((2 : ℚ), (2 : ℚ))
    ((10 : ℚ), (10 : ℚ)) ⟨((1 : ℚ), (1 : ℚ)), by decide, by decide⟩

end HypervolumeCalculator

end Tour
